import Mathlib

/-!
Verification development for the MEFS MCP server core
(`src/core/mefs/auth.ts`, `src/core/mefs/config.ts`, `src/core/mefs/utils.ts`,
`src/core/mefs/client.ts`, `src/core/server/tools/upload.ts`,
`src/core/server/tools/retrieve.ts`).

The TypeScript modules are shallowly embedded as pure Lean functions.
Network endpoints (`fetch`) and the external `ethers` wallet are passed in as
oracle parameters, and every function that performs network calls also returns
a trace counting how many times each endpoint was invoked.  JavaScript strings
are modelled as Lean `String`; byte arrays (`Uint8Array` / `Buffer`) as
`List Nat`; `undefined`-able values as `Option`; thrown `Error`s as `Except`
errors carrying the same distinctions (and message text) the code produces.
All string manipulation is routed through `List Char` so that every definition
reduces by kernel computation.
-/

deriving instance DecidableEq for Except

namespace Mefs

/-- JavaScript `s.startsWith(p)`, computed on the character list. -/
def strStartsWith (s p : String) : Bool :=
  p.toList.isPrefixOf s.toList

/-- JavaScript `s.slice(n)` for ASCII strings: drop the first `n` characters. -/
def strDropChars (s : String) (n : Nat) : String :=
  String.mk (s.toList.drop n)

/-- Structure `AuthTokens` from `auth.ts`: the access/refresh token pair. -/
structure AuthTokens where
  accessToken : String
  refreshToken : String
deriving DecidableEq, Repr

/-- Structure `LoginResponse` from `auth.ts`. -/
structure LoginResponse where
  accessToken : String
  refreshToken : String
  newAccount : Bool
deriving DecidableEq, Repr

/-- Structure `AuthConfig` from `auth.ts` (`MefsConfig` in `config.ts` adds nothing).
Optional fields are `Option`; `privateKey` is absent when `none`. -/
structure AuthConfig where
  apiBaseUrl : String
  origin : String
  address : Option String
  chainId : Option Nat
  privateKey : Option String
deriving DecidableEq, Repr

/-- The data carried by a non-`ok` HTTP response: numeric status, status text
and the response body text. -/
structure HttpFailure where
  status : Nat
  statusText : String
  body : String
deriving DecidableEq, Repr

/-- The failure classes of `signMessage` in `auth.ts`.  The two guard throws
(`Private key is required for signing messages`, `Message cannot be empty`)
happen before the `try` block; everything thrown inside the `try` block -
including the internal `Invalid hex format for private key` throw and
any error from the ethers wallet - is re-thrown as
`Failed to sign message: <inner>`. -/
inductive SignError where
  | emptyKey
  | emptyMessage
  | wrapped (inner : String)
deriving DecidableEq, Repr

/-- The spec taxonomy class `EmptyInput`: the two guard throws of
`signMessage`. -/
def SignError.isEmptyInput : SignError → Bool
  | .emptyKey => true
  | .emptyMessage => true
  | .wrapped _ => false

/-- The spec taxonomy class `InvalidKeyFormat`: the wrapped form of the
`Invalid hex format for private key` throw raised by the hex-regex check in
`signMessage`. -/
def SignError.isInvalidKeyFormat : SignError → Bool
  | .wrapped inner => inner = "Invalid hex format for private key"
  | _ => false

/-- The regex `/^[0-9a-fA-F]+$/` used by `signMessage`: at least one
character, all hexadecimal digits. -/
def isHexChar (c : Char) : Bool :=
  (decide ('0' ≤ c) && decide (c ≤ '9')) ||
  (decide ('a' ≤ c) && decide (c ≤ 'f')) ||
  (decide ('A' ≤ c) && decide (c ≤ 'F'))

/-- The test `/^[0-9a-fA-F]+$/.test(s)`. -/
def isHexString (s : String) : Bool :=
  !s.toList.isEmpty && s.toList.all isHexChar

/-- Strip of the optional 0x prefix: `privateKey.slice(2)` when the key starts with `0x`. -/
def stripHex0x (s : String) : String :=
  if strStartsWith s "0x" then strDropChars s 2 else s

/-- Oracle for the external `ethers` library: `new ethers.Wallet(key)`
followed by `wallet.signMessage(message)`, taking the `0x`-prefixed cleaned
key and the message, returning a signature or the error message of the library.
`ethers` is an external dependency, not part of this repository, so its
behaviour is a parameter of the embedding. -/
def WalletOracle : Type :=
  String → String → Except String String

/-- A concrete instance of `WalletOracle` modelling documented `ethers`
behaviour: wallet construction accepts exactly 32-byte keys (66 characters
with the `0x` prefix) and otherwise throws `invalid private key`; signing
returns a deterministic signature tag. -/
def ethersWallet : WalletOracle :=
  fun key message =>
    if key.toList.length = 66 then .ok ("0xsig[" ++ key ++ "][" ++ message ++ "]")
    else .error "invalid private key"

/-- Function `signMessage` from `auth.ts`.  `privateKey : Option String` models the
`string | undefined` parameter; `!privateKey` is true for `undefined` and
for the empty string. -/
def signMessage (wallet : WalletOracle) (privateKey : Option String)
    (message : String) : Except SignError String :=
  if privateKey.getD "" = "" then .error .emptyKey
  else if message = "" then .error .emptyMessage
  else
    let cleanKey := stripHex0x (privateKey.getD "")
    if !isHexString cleanKey then .error (.wrapped "Invalid hex format for private key")
    else
      match wallet ("0x" ++ cleanKey) message with
      | .ok signature => .ok signature
      | .error e => .error (.wrapped e)

/-- The failure classes of the full authentication flow (`authenticate` in
`auth.ts`), with the wrapped messages the code produces. -/
inductive AuthError where
  | missingPrivateKey
  | challengeFailed (f : HttpFailure)
  | signFailed (e : SignError)
  | loginFailed (f : HttpFailure)
deriving DecidableEq, Repr

/-- Oracle for the HTTP transport used by `getChallenge` and `login`: the
outcome of a `GET /challenge` request and of a `POST /login` request (as a
function of the message and signature sent). -/
structure Transport where
  challenge : Except HttpFailure String
  login : String → String → Except HttpFailure LoginResponse

/-- Count of network round-trips performed against the two auth endpoints. -/
structure NetTrace where
  challengeCalls : Nat
  loginCalls : Nat
deriving DecidableEq, Repr

/-- Function `authenticate` from `auth.ts`: check the private key, fetch the
challenge, sign it, log in; returns the token pair together with the number
of challenge/login endpoint invocations it performed. -/
def authenticate (wallet : WalletOracle) (tp : Transport) (config : AuthConfig) :
    Except AuthError AuthTokens × NetTrace :=
  if config.privateKey.getD "" = "" then (.error .missingPrivateKey, ⟨0, 0⟩)
  else
    match tp.challenge with
    | .error f => (.error (.challengeFailed f), ⟨1, 0⟩)
    | .ok message =>
      match signMessage wallet config.privateKey message with
      | .error e => (.error (.signFailed e), ⟨1, 0⟩)
      | .ok signature =>
        match tp.login message signature with
        | .error f => (.error (.loginFailed f), ⟨1, 1⟩)
        | .ok lr => (.ok ⟨lr.accessToken, lr.refreshToken⟩, ⟨1, 1⟩)

/-- Function `getAuthTokens` from `config.ts`, with the module-level mutable
`cachedTokens` made an explicit argument.  Returns the result of the call, the new
cache contents, and the network trace of this call. -/
def getAuthTokens (wallet : WalletOracle) (tp : Transport) (config : AuthConfig)
    (cachedTokens : Option AuthTokens) :
    Except AuthError AuthTokens × Option AuthTokens × NetTrace :=
  match cachedTokens with
  | some t => (.ok t, some t, ⟨0, 0⟩)
  | none =>
    match authenticate wallet tp config with
    | (.ok tokens, tr) => (.ok tokens, some tokens, tr)
    | (.error e, tr) => (.error e, none, tr)

/-- Function `clearAuthTokens` from `config.ts`: unconditionally clears the cache. -/
def clearAuthTokens (_cachedTokens : Option AuthTokens) : Option AuthTokens :=
  none

/-- Progress of one concurrent `getAuthTokens` call.  The code
(`config.ts`) is `if (cachedTokens) return cachedTokens;` followed by
`const tokens = await authenticate(config); cachedTokens = tokens;`.
A caller therefore has one observable suspension point: `start` is before
its synchronous cache check has run, `inflight` is while its own
`authenticate` round-trip is pending (the cache was empty at check time),
and `done` holds the settled result. -/
inductive CallerState where
  | start
  | inflight
  | done (r : Except AuthError AuthTokens)
deriving DecidableEq, Repr

/-- Shared state of the module: the `cachedTokens` global, the accumulated
endpoint-invocation counts, and the progress of each concurrent caller. -/
structure SessionState where
  cache : Option AuthTokens
  trace : NetTrace
  callers : List CallerState
deriving DecidableEq, Repr

/-- One event-loop step of caller `i`:
a `start` caller runs the synchronous cache check (returning the cached
pair on a hit, otherwise entering its own `authenticate`); an `inflight`
caller completes its own `authenticate` round-trip, adds its network calls
to the trace, and on success overwrites the cache. -/
def stepCaller (wallet : WalletOracle) (tp : Transport) (config : AuthConfig)
    (st : SessionState) (i : Nat) : SessionState :=
  match st.callers[i]? with
  | some .start =>
    match st.cache with
    | some t => ⟨st.cache, st.trace, st.callers.set i (.done (.ok t))⟩
    | none => ⟨st.cache, st.trace, st.callers.set i .inflight⟩
  | some .inflight =>
    match authenticate wallet tp config with
    | (.ok t, tr) =>
      ⟨some t, ⟨st.trace.challengeCalls + tr.challengeCalls, st.trace.loginCalls + tr.loginCalls⟩,
       st.callers.set i (.done (.ok t))⟩
    | (.error e, tr) =>
      ⟨st.cache, ⟨st.trace.challengeCalls + tr.challengeCalls, st.trace.loginCalls + tr.loginCalls⟩,
       st.callers.set i (.done (.error e))⟩
  | _ => st

/-- Run `n` concurrent `getAuthTokens` calls against an initially empty
cache under a given interleaving (a list of caller indices, each entry one
event-loop step of that caller). -/
def runSchedule (wallet : WalletOracle) (tp : Transport) (config : AuthConfig)
    (n : Nat) (sched : List Nat) : SessionState :=
  sched.foldl (stepCaller wallet tp config) ⟨none, ⟨0, 0⟩, List.replicate n .start⟩

/-! ### Base64 (`utils.ts` and the multiformats / Buffer dependencies) -/

/-- Character value in the RFC 4648 base64 alphabet
`A-Z a-z 0-9 + /` (no padding character), as used both by the multiformats
`base64` codec and by canonical Node `Buffer` base64. -/
def b64Code (c : Char) : Option Nat :=
  if decide ('A' ≤ c) && decide (c ≤ 'Z') then some (c.toNat - 'A'.toNat)
  else if decide ('a' ≤ c) && decide (c ≤ 'z') then some (c.toNat - 'a'.toNat + 26)
  else if decide ('0' ≤ c) && decide (c ≤ '9') then some (c.toNat - '0'.toNat + 52)
  else if c = '+' then some 62
  else if c = '/' then some 63
  else none

/-- The bit-accumulator loop of the multiformats RFC 4648 decoder: consume
6 bits per character, emit a byte whenever 8 bits are available.  Returns
the leftover bit count, the accumulator, and the bytes emitted; `none` on a
character outside the alphabet.  The accumulator is kept as an unbounded
`Nat`; the JS 32-bit truncation never affects the low 13 bits that the
byte extraction and the final leftover check read. -/
def rfc4648Loop : List Char → Nat → Nat → List Nat → Option (Nat × Nat × List Nat)
  | [], bits, buffer, out => some (bits, buffer, out)
  | c :: cs, bits, buffer, out =>
    match b64Code c with
    | none => none
    | some v =>
      let buffer2 := buffer * 64 + v
      let bits2 := bits + 6
      if 8 ≤ bits2 then
        rfc4648Loop cs (bits2 - 8) buffer2 (out ++ [buffer2 / 2 ^ (bits2 - 8) % 256])
      else
        rfc4648Loop cs bits2 buffer2 out

/-- The computation `cs.reverse.dropWhile (= '=') |>.reverse`: the multiformats decoder
tolerates and strips trailing `=` characters before decoding. -/
def dropTrailingEq (cs : List Char) : List Char :=
  (cs.reverse.dropWhile (fun c => c == '=')).reverse

/-- The multiformats RFC 4648 base64 decode of a (prefix-stripped) string:
strip trailing padding, run the 6-bit loop, then reject when 6 or more bits
are left over or the leftover bits are non-zero. -/
def multiformatsBase64Decode (cs : List Char) : Option (List Nat) :=
  let body := dropTrailingEq cs
  match rfc4648Loop body 0 0 [] with
  | none => none
  | some (bits, buffer, out) =>
    if 6 ≤ bits then none
    else if buffer * 2 ^ (8 - bits) % 256 ≠ 0 then none
    else some out

/-- Function `base64.decode` from multiformats: the multibase decoder demands the
`m` multibase prefix as first character and decodes the remainder. -/
def multibaseB64Decode (s : String) : Option (List Nat) :=
  match s.toList with
  | 'm' :: rest => multiformatsBase64Decode rest
  | _ => none

/-- Strict decoder for canonical padded base64, processing groups of four
characters with `=` padding allowed only in the final group and only with
zero leftover bits. -/
def decodeGroups : List Char → Option (List Nat)
  | [] => some []
  | c1 :: c2 :: c3 :: c4 :: rest =>
    match b64Code c1, b64Code c2 with
    | some v1, some v2 =>
      if c3 = '=' then
        if c4 = '=' ∧ rest = [] then
          if v2 % 16 = 0 then some [v1 * 4 + v2 / 16] else none
        else none
      else
        match b64Code c3 with
        | some v3 =>
          if c4 = '=' then
            if rest = [] then
              if v3 % 4 = 0 then some [v1 * 4 + v2 / 16, v2 % 16 * 16 + v3 / 4] else none
            else none
          else
            match b64Code c4 with
            | some v4 =>
              (decodeGroups rest).map
                fun bs => (v1 * 4 + v2 / 16) :: (v2 % 16 * 16 + v3 / 4) :: (v3 % 4 * 64 + v4) :: bs
            | none => none
        | none => none
    | _, _ => none
  | _ => none

/-- The `Buffer` fallback of `base64ToBytes`:
base64-mode `Buffer.from(cleanStr)` followed by the round-trip check
`buffer.toString === cleanStr` (base64 mode).  The base64 `toString` always
produces canonical padded base64, so the check succeeds exactly when
`cleanStr` is canonical padded base64, and then the bytes are its unique
decoding; on any other input the code throws `Invalid base64 format`. -/
def nodeBufferRoundTripDecode (s : String) : Option (List Nat) :=
  decodeGroups s.toList

/-- The character class of the `.` regex metacharacter in JavaScript
(without the `s` flag): any character except the four line terminators. -/
def jsDotMatch (c : Char) : Bool :=
  c != '\n' && c != '\r' && c != ' ' && c != ' '

/-- The characters of the literal `;base64,` that terminates the lazy
`.*?` of the data-URL prefix regex in `utils.ts`. -/
def markerChars : List Char :=
  [';', 'b', 'a', 's', 'e', '6', '4', ',']

/-- The characters of the literal `data:` that anchors the data-URL prefix
regex. -/
def dataPrelude : List Char :=
  ['d', 'a', 't', 'a', ':']

/-- Matching of `.*?;base64,` at successive positions, lazily: at each
position first try the literal marker, otherwise let `.*?` consume one
`.`-matchable character.  Returns the suffix after the first reachable
marker. -/
def dropAfterMarker : List Char → Option (List Char)
  | [] => none
  | c :: rest =>
    if markerChars.isPrefixOf (c :: rest) then some ((c :: rest).drop 8)
    else if jsDotMatch c then dropAfterMarker rest else none

/-- The replacement of the regex `/^data:.*?;base64,/` match by the empty
string in `base64ToBytes`: when the string starts
with `data:` and a reachable `;base64,` follows, drop everything up to and
including the first such marker; otherwise return the string unchanged. -/
def stripDataUrlChars (l : List Char) : List Char :=
  if dataPrelude.isPrefixOf l then
    match dropAfterMarker (l.drop 5) with
    | some rest => rest
    | none => l
  else l

/-- String wrapper of `stripDataUrlChars`. -/
def stripDataUrl (s : String) : String :=
  String.mk (stripDataUrlChars s.toList)

/-- The decode pipeline of `base64ToBytes` after the data-URL strip: add
the `m` multibase prefix unless the string already starts with `m`, try the
multiformats decoder, and fall back to the strict Buffer round-trip. -/
def decodeCleanedBase64 (cleanStr : String) : Option (List Nat) :=
  let prefixedStr := if strStartsWith cleanStr "m" then cleanStr else "m" ++ cleanStr
  match multibaseB64Decode prefixedStr with
  | some bytes => some bytes
  | none => nodeBufferRoundTripDecode cleanStr

/-- Function `base64ToBytes` from `utils.ts`: strip any data-URL prefix, then decode;
`none` models the thrown `Invalid base64 format` error. -/
def base64ToBytes (s : String) : Option (List Nat) :=
  decodeCleanedBase64 (stripDataUrl s)

/-- The base64 character at index `v` of the RFC 4648 alphabet. -/
def b64Char (v : Nat) : Char :=
  if v < 26 then Char.ofNat ('A'.toNat + v)
  else if v < 52 then Char.ofNat ('a'.toNat + (v - 26))
  else if v < 62 then Char.ofNat ('0'.toNat + (v - 52))
  else if v = 62 then '+'
  else '/'

/-- Canonical padded base64 encoding of a byte list, as produced by
the base64 mode of `Buffer.prototype.toString`. -/
def encodeB64Chars : List Nat → List Char
  | [] => []
  | [b1] => [b64Char (b1 / 4), b64Char (b1 % 4 * 16), '=', '=']
  | [b1, b2] => [b64Char (b1 / 4), b64Char (b1 % 4 * 16 + b2 / 16), b64Char (b2 % 16 * 4), '=']
  | b1 :: b2 :: b3 :: rest =>
    b64Char (b1 / 4) :: b64Char (b1 % 4 * 16 + b2 / 16) ::
    b64Char (b2 % 16 * 4 + b3 / 64) :: b64Char (b3 % 64) :: encodeB64Chars rest

/-- Function `bytesToBase64` from `retrieve.ts`:
`Buffer.from(data).toString` in base64 mode. -/
def bytesToBase64 (bs : List Nat) : String :=
  String.mk (encodeB64Chars bs)

example : base64ToBytes "dGVzdA==" = some [116, 101, 115, 116] := by decide
example : base64ToBytes "dGVzdA" = some [116, 101, 115, 116] := by decide
example : base64ToBytes "not-base64" = none := by decide
example : base64ToBytes "man" = none := by decide
example : base64ToBytes "data:image/png;base64,dGVzdA==" = some [116, 101, 115, 116] := by decide
example : base64ToBytes "data:;base64,dGVzdA" = some [116, 101, 115, 116] := by decide
example : bytesToBase64 [116, 101, 115, 116] = "dGVzdA==" := by decide
example : nodeBufferRoundTripDecode "dGVzdA" = none := by decide
example : nodeBufferRoundTripDecode "dGVzdA==" = some [116, 101, 115, 116] := by decide
example : bytesToBase64 [] = "" := by decide

/-! ### Storage client (`client.ts`) -/

/-- Structure `ApiConfig` from `client.ts`. -/
structure ApiConfig where
  apiBaseUrl : String
  accessToken : String
deriving DecidableEq, Repr

/-- Structure `UploadOptions` from `client.ts`; every field optional. -/
structure UploadOptions where
  key : Option String
  public : Option Bool
  user : Option String
deriving DecidableEq, Repr

/-- Structure `UploadResult` from `client.ts`: the JSON body of a successful upload. -/
structure UploadResult where
  Mid : String
deriving DecidableEq, Repr

/-- One entry of the multipart `FormData` body built by `uploadFile`. -/
inductive FormField where
  | file (bytes : List Nat) (filename : String)
  | field (name : String) (value : String)
deriving DecidableEq, Repr

/-- The observable HTTP request sent by `uploadFile`. -/
structure UploadRequest where
  url : String
  authorization : String
  form : List FormField
deriving DecidableEq, Repr

/-- The guard `if (options.x) formData.append(name, x)` for a string option: JS
truthiness appends the field only when present and non-empty. -/
def optStringField (name : String) (o : Option String) : List FormField :=
  match o with
  | some v => if v = "" then [] else [.field name v]
  | none => []

/-- The guard appending the `public` field with value `true`: JS truthiness
appends the field only when present and `true`. -/
def optBoolField (name : String) (o : Option Bool) : List FormField :=
  if o = some true then [.field name "true"] else []

/-- The multipart request built by `uploadFile`: the file blob under field
`file` with the given filename, then `key`, `public`, `user` by truthiness. -/
def buildUploadRequest (config : ApiConfig) (file : List Nat) (filename : String)
    (options : UploadOptions) : UploadRequest :=
  ⟨config.apiBaseUrl ++ "/mefs/",
   "Bearer " ++ config.accessToken,
   .file file filename ::
     (optStringField "key" options.key ++ optBoolField "public" options.public ++
      optStringField "user" options.user)⟩

/-- Value of the first plain form field with the given name in a field
list, if any. -/
def formLookup (n : String) : List FormField → Option String
  | [] => none
  | .file _ _ :: rest => formLookup n rest
  | .field m v :: rest => if m = n then some v else formLookup n rest

/-- Value of the first plain form field with the given name, if any. -/
def getFormField (r : UploadRequest) (n : String) : Option String :=
  formLookup n r.form

/-- Whether the multipart body carries a plain field with the given name. -/
def hasFormField (r : UploadRequest) (n : String) : Bool :=
  (getFormField r n).isSome

/-- The failure classes of `client.ts`, carrying status, status text and
body text of the non-success response. -/
inductive ClientError where
  | uploadFailed (f : HttpFailure)
  | downloadFailed (f : HttpFailure)
deriving DecidableEq, Repr

/-- Function `uploadFile` from `client.ts`, with the HTTP outcome supplied by an
oracle: returns the request it sends and either the decoded `UploadResult`
or `UploadFailed` data from the non-success response. -/
def uploadFile (config : ApiConfig) (file : List Nat) (filename : String)
    (options : UploadOptions) (resp : Except HttpFailure UploadResult) :
    UploadRequest × Except ClientError UploadResult :=
  (buildUploadRequest config file filename options,
   match resp with
   | .error f => .error (.uploadFailed f)
   | .ok r => .ok r)

/-- The observable GET request sent by `downloadFile` (`key` attached as a
query parameter only when truthy). -/
structure DownloadRequest where
  url : String
  query : List (String × String)
  authorization : String
deriving DecidableEq, Repr

/-- The HTTP response a `downloadFile` call observes. -/
structure DownloadHttpResponse where
  ok : Bool
  status : Nat
  statusText : String
  errorBody : String
  contentType : Option String
  contentDisposition : Option String
  body : List Nat
deriving DecidableEq, Repr

/-- Structure `DownloadResult` from `client.ts`. -/
structure DownloadResult where
  data : List Nat
  filename : String
  contentType : Option String
deriving DecidableEq, Repr

/-- The request side of `downloadFile`. -/
def buildDownloadRequest (config : ApiConfig) (cid : String) (key : Option String) :
    DownloadRequest :=
  ⟨config.apiBaseUrl ++ "/mefs/" ++ cid,
   (match key with
    | some k => if k = "" then [] else [("key", k)]
    | none => []),
   "Bearer " ++ config.accessToken⟩

/-- One attempt of `/filename="?([^"]+)"?/` immediately after a matched
`filename=` literal: optionally consume one quote, then capture a
non-empty run of non-quote characters (the trailing `"?` always matches). -/
def filenameCaptureAt : List Char → Option (List Char)
  | [] => none
  | '"' :: rest =>
    let run := rest.takeWhile fun c => c != '"'
    if run.isEmpty then none else some run
  | c :: rest =>
    let run := (c :: rest).takeWhile fun c => c != '"'
    if run.isEmpty then none else some run

/-- The literal part of the filename regex. -/
def filenameLit : List Char :=
  "filename=".toList

/-- Leftmost match of `/filename="?([^"]+)"?/`: try the pattern at each
position, returning the first successful capture. -/
def findFilename : List Char → Option (List Char)
  | [] => none
  | c :: cs =>
    if filenameLit.isPrefixOf (c :: cs) then
      match filenameCaptureAt ((c :: cs).drop 9) with
      | some cap => some cap
      | none => findFilename cs
    else findFilename cs

/-- The filename `downloadFile` reports: the regex capture on the
`Content-Disposition` header (defaulted to the empty string), or the
literal `unknown` when the header is absent or the pattern does not
match. -/
def filenameFromHeader (cd : Option String) : String :=
  match findFilename (cd.getD "").toList with
  | some cap => String.mk cap
  | none => "unknown"

/-- The expression `response.headers.get(h) || undefined`: an absent or empty header
becomes `undefined`. -/
def jsHeaderOrNone (h : Option String) : Option String :=
  match h with
  | some s => if s = "" then none else some s
  | none => none

/-- Function `downloadFile` from `client.ts`: on a non-success status fail with the
status/statusText/body data; on success return the body bytes, the
extracted filename and the `Content-Type` header when present. -/
def downloadFile (config : ApiConfig) (cid : String) (key : Option String)
    (resp : DownloadHttpResponse) : DownloadRequest × Except ClientError DownloadResult :=
  (buildDownloadRequest config cid key,
   if resp.ok then
     .ok ⟨resp.body, filenameFromHeader resp.contentDisposition, jsHeaderOrNone resp.contentType⟩
   else
     .error (.downloadFailed ⟨resp.status, resp.statusText, resp.errorBody⟩))

/-! ### Tool envelope adapters (`upload.ts`, `retrieve.ts`) -/

/-- Minimal JSON value model for the serialized tool payloads. -/
inductive JsonVal where
  | str (s : String)
  | num (n : Nat)
  | null
deriving DecidableEq, Repr

/-- A tool response content item: the optional `error: true` flag and the
object serialized into its `text`. -/
structure ToolResult where
  isError : Bool
  payload : List (String × JsonVal)
deriving DecidableEq, Repr

/-- Whether the serialized payload carries a property with this name. -/
def hasJsonKey (p : List (String × JsonVal)) (k : String) : Bool :=
  p.any fun kv => kv.1 == k

/-- The interpolation `status statusText - body`, the interpolation shared by the HTTP error
messages of `auth.ts` and `client.ts`. -/
def httpFailureText (f : HttpFailure) : String :=
  toString f.status ++ " " ++ f.statusText ++ " - " ++ f.body

/-- The `message` of the `Error` thrown for each authentication failure. -/
def authErrorMessage : AuthError → String
  | .missingPrivateKey => "Private key is required for authentication"
  | .challengeFailed f => "Failed to get challenge: " ++ httpFailureText f
  | .signFailed .emptyKey => "Private key is required for signing messages"
  | .signFailed .emptyMessage => "Message cannot be empty"
  | .signFailed (.wrapped inner) => "Failed to sign message: " ++ inner
  | .loginFailed f => "Failed to login: " ++ httpFailureText f

/-- The `message` of the `Error` thrown for each storage-client failure. -/
def clientErrorMessage : ClientError → String
  | .uploadFailed f => "Failed to upload file: " ++ httpFailureText f
  | .downloadFailed f => "Failed to download file: " ++ httpFailureText f

/-- The error envelope of the upload tool: `error: true` plus
`{name, message, cause}` (all errors here are plain `Error`s without a
`cause`). -/
def uploadErrorResult (message : String) : ToolResult :=
  ⟨true, [("name", .str "Error"), ("message", .str message), ("cause", .null)]⟩

/-- The error envelope of the retrieve tool, which additionally reports the
configured `apiBaseUrl`. -/
def retrieveErrorResult (config : AuthConfig) (message : String) : ToolResult :=
  ⟨true, [("name", .str "Error"), ("message", .str message), ("cause", .null),
          ("apiBaseUrl", .str config.apiBaseUrl)]⟩

/-- Schema-validated input of the upload tool. -/
structure UploadInput where
  file : String
  name : String
  key : Option String
  public : Option Bool
deriving DecidableEq, Repr

/-- Schema-validated input of the retrieve tool. -/
structure RetrieveInput where
  cid : String
  key : Option String
deriving DecidableEq, Repr

/-- Observable outcome of one upload-tool invocation: the tool result, the
new token cache, the auth-endpoint trace, the number of upload-endpoint
calls, and the upload request if one was sent. -/
structure UploadOutcome where
  result : ToolResult
  cache : Option AuthTokens
  trace : NetTrace
  uploadCalls : Nat
  sentRequest : Option UploadRequest
deriving DecidableEq, Repr

/-- Observable outcome of one retrieve-tool invocation. -/
structure RetrieveOutcome where
  result : ToolResult
  cache : Option AuthTokens
  trace : NetTrace
  downloadCalls : Nat
deriving DecidableEq, Repr

/-- The handler of `upload.ts`: decode the base64 payload, fetch tokens,
upload; every thrown error is caught and serialized into the error
envelope, so the handler is a total function into `ToolResult`. -/
def uploadHandler (wallet : WalletOracle) (tp : Transport)
    (upResp : Except HttpFailure UploadResult) (config : AuthConfig)
    (cache : Option AuthTokens) (input : UploadInput) : UploadOutcome :=
  match base64ToBytes input.file with
  | none => ⟨uploadErrorResult "Invalid base64 format", cache, ⟨0, 0⟩, 0, none⟩
  | some fileBytes =>
    match getAuthTokens wallet tp config cache with
    | (.error e, cache2, tr) => ⟨uploadErrorResult (authErrorMessage e), cache2, tr, 0, none⟩
    | (.ok tokens, cache2, tr) =>
      match uploadFile ⟨config.apiBaseUrl, tokens.accessToken⟩ fileBytes input.name
          ⟨input.key, input.public, none⟩ upResp with
      | (req, .error ce) => ⟨uploadErrorResult (clientErrorMessage ce), cache2, tr, 1, some req⟩
      | (req, .ok r) =>
        ⟨⟨false, [("cid", .str r.Mid), ("filename", .str input.name),
                  ("size", .num fileBytes.length)]⟩,
         cache2, tr, 1, some req⟩

/-- The handler of `retrieve.ts`: fetch tokens, download, base64-encode the
bytes; every thrown error is caught and serialized into the error
envelope (`JSON.stringify` drops the `contentType` property when the value
is `undefined`). -/
def retrieveHandler (wallet : WalletOracle) (tp : Transport)
    (dlResp : DownloadHttpResponse) (config : AuthConfig)
    (cache : Option AuthTokens) (input : RetrieveInput) : RetrieveOutcome :=
  match getAuthTokens wallet tp config cache with
  | (.error e, cache2, tr) => ⟨retrieveErrorResult config (authErrorMessage e), cache2, tr, 0⟩
  | (.ok tokens, cache2, tr) =>
    match downloadFile ⟨config.apiBaseUrl, tokens.accessToken⟩ input.cid input.key dlResp with
    | (_, .error ce) => ⟨retrieveErrorResult config (clientErrorMessage ce), cache2, tr, 1⟩
    | (_, .ok r) =>
      ⟨⟨false,
        [("cid", .str input.cid), ("filename", .str r.filename),
         ("file", .str (bytesToBase64 r.data)), ("size", .num r.data.length)] ++
        (match r.contentType with
         | some s => [("contentType", .str s)]
         | none => [])⟩,
       cache2, tr, 1⟩

/-! ### Concrete fixtures used by witnesses and counterexamples -/

/-- The well-known Hardhat test key also used by the tests of the repository. -/
def hardhatKey : String :=
  "0xac0974bec39a17e36ba4a6b4d238ff944bacb478cbed5efcae784d7bf4f2ff80"

/-- A configuration with a private key present. -/
def cfgOk : AuthConfig :=
  ⟨"https://api.mefs.io:10000/produce", "https://memo.io", none, some 985, some hardhatKey⟩

/-- A configuration with no private key. -/
def cfgNoKey : AuthConfig :=
  ⟨"https://api.mefs.io:10000/produce", "https://memo.io", none, some 985, none⟩

/-- A transport whose challenge and login requests always succeed. -/
def tpOk : Transport :=
  ⟨.ok "challenge-message", fun _ _ => .ok ⟨"acc-token", "ref-token", false⟩⟩

/-- A transport whose requests always fail with HTTP 500. -/
def tpFail : Transport :=
  ⟨.error ⟨500, "Internal Server Error", "boom"⟩,
   fun _ _ => .error ⟨500, "Internal Server Error", "boom"⟩⟩

/-- The token pair `tpOk` logins produce. -/
def tokensOk : AuthTokens :=
  ⟨"acc-token", "ref-token"⟩

example : (authenticate ethersWallet tpOk cfgOk).1 = .ok tokensOk := by decide
example : authenticate ethersWallet tpOk cfgOk = (.ok tokensOk, ⟨1, 1⟩) := by decide
example : authenticate ethersWallet tpFail cfgOk =
    (.error (.challengeFailed ⟨500, "Internal Server Error", "boom"⟩), ⟨1, 0⟩) := by decide
example : getAuthTokens ethersWallet tpOk cfgOk none = (.ok tokensOk, some tokensOk, ⟨1, 1⟩) := by
  decide
example :
    (uploadHandler ethersWallet tpOk (.ok ⟨"QmCid"⟩) cfgOk none
      ⟨"dGVzdA==", "test.txt", none, none⟩).result =
    ⟨false, [("cid", .str "QmCid"), ("filename", .str "test.txt"), ("size", .num 4)]⟩ := by
  decide
example : filenameFromHeader (some "attachment; filename=\"report.pdf\"") = "report.pdf" := by
  decide
example : filenameFromHeader (some "attachment; filename=report.pdf") = "report.pdf" := by decide
example : filenameFromHeader (some "attachment") = "unknown" := by decide
example : filenameFromHeader none = "unknown" := by decide
example : filenameFromHeader (some "filename=\"\"; filename=x") = "x" := by decide

example : signMessage ethersWallet (some "") "m" = .error .emptyKey := by decide
example : signMessage ethersWallet none "m" = .error .emptyKey := by decide
example : signMessage ethersWallet (some "0xab") "" = .error .emptyMessage := by decide
example : signMessage ethersWallet (some "not-hex") "m" =
    .error (.wrapped "Invalid hex format for private key") := by decide
example : signMessage ethersWallet (some "abcd") "m" =
    .error (.wrapped "invalid private key") := by decide
example :
    signMessage ethersWallet
      (some "0xac0974bec39a17e36ba4a6b4d238ff944bacb478cbed5efcae784d7bf4f2ff80") "m" =
    .ok ("0xsig[0xac0974bec39a17e36ba4a6b4d238ff944bacb478cbed5efcae784d7bf4f2ff80][m]") := by
  decide

/-! ### Shared helper lemmas -/

/-- Whether an `Except` value is an error. -/
def exceptIsError {ε α : Type} : Except ε α → Bool
  | .error _ => true
  | .ok _ => false

/-- A successful `authenticate` has performed exactly one challenge and one
login request. -/
theorem authenticate_ok_trace (wallet : WalletOracle) (tp : Transport)
    (config : AuthConfig) (t : AuthTokens) (tr : NetTrace)
    (h : authenticate wallet tp config = (.ok t, tr)) : tr = ⟨1, 1⟩ := by
  unfold authenticate at h
  split at h
  · simp at h
  · split at h
    · simp at h
    · split at h
      · simp at h
      · split at h
        · simp at h
        · injection h with h1 h2
          exact h2.symm

/-- The two sequential `getAuthTokens` calls of the spec scenario: run once
against the empty cache, then again against the resulting cache; returns
both results, the final cache, and the summed network trace. -/
def getAuthTokensTwice (wallet : WalletOracle) (tp : Transport) (config : AuthConfig) :
    Except AuthError AuthTokens × Except AuthError AuthTokens × Option AuthTokens × NetTrace :=
  let c1 := getAuthTokens wallet tp config none
  let c2 := getAuthTokens wallet tp config c1.2.1
  (c1.1, c2.1, c2.2.1,
   ⟨c1.2.2.challengeCalls + c2.2.2.challengeCalls, c1.2.2.loginCalls + c2.2.2.loginCalls⟩)

/-- First-of-two option combinator, for splitting `formLookup` over list
concatenation. -/
def optFirst (a b : Option String) : Option String :=
  match a with
  | some v => some v
  | none => b

theorem optFirst_none_right (a : Option String) : optFirst a none = a := by
  cases a <;> rfl

theorem optFirst_none_left (b : Option String) : optFirst none b = b :=
  rfl

theorem formLookup_append (n : String) (a b : List FormField) :
    formLookup n (a ++ b) = optFirst (formLookup n a) (formLookup n b) := by
  induction a with
  | nil => simp [formLookup, optFirst]
  | cons f rest ih =>
    cases f with
    | file bs fn => simpa [formLookup] using ih
    | field m v =>
      by_cases hm : m = n <;> simp [formLookup, hm, optFirst, ih]

theorem formLookup_optStringField (n nm : String) (o : Option String) :
    formLookup n (optStringField nm o) =
      (if nm = n then
        (match o with
         | some v => if v = "" then none else some v
         | none => none)
       else none) := by
  rcases o with _ | v
  · simp [optStringField, formLookup]
  · by_cases hv : v = "" <;> by_cases hm : nm = n <;>
      simp [optStringField, formLookup, hv, hm]

theorem formLookup_optBoolField (n nm : String) (o : Option Bool) :
    formLookup n (optBoolField nm o) =
      (if nm = n ∧ o = some true then some "true" else none) := by
  by_cases ho : o = some true <;> by_cases hm : nm = n <;>
    simp [optBoolField, ho, hm, formLookup]

/-! ### Claim theorems -/

/-- Claim C1: the spec requires that when five concurrent `getTokens` calls
observe an empty cache, exactly one challenge and one login round-trip
occurs.  The code guards the cache with a bare synchronous check, so under
the interleaving in which all five callers run their cache check before any
authentication resolves, every caller runs its own full `authenticate`:
the challenge and login endpoints are each invoked five times, not once. -/
theorem concurrent_getTokens_duplicate_roundtrips :
    (runSchedule ethersWallet tpOk cfgOk 5 [0, 1, 2, 3, 4, 0, 1, 2, 3, 4]).trace = ⟨5, 5⟩ ∧
    (runSchedule ethersWallet tpOk cfgOk 5 [0, 1, 2, 3, 4, 0, 1, 2, 3, 4]).callers =
      List.replicate 5 (.done (.ok tokensOk)) ∧
    (5 : Nat) ≠ 1 := by
  decide

/-- Claim C2: for every starting cache state and every outcome of the
transport, the cache after a `getAuthTokens` call is the pair the call
returned when it succeeded, and is exactly the old cache when the call
failed; as the cache is a single `Option AuthTokens`, at most one pair is
ever cached. -/
theorem getAuthTokens_cache_discipline (wallet : WalletOracle) (tp : Transport)
    (config : AuthConfig) (cache : Option AuthTokens) :
    (getAuthTokens wallet tp config cache).2.1 =
      (match (getAuthTokens wallet tp config cache).1 with
       | .ok t => some t
       | .error _ => cache) := by
  cases cache with
  | some t => rfl
  | none =>
    rcases h : authenticate wallet tp config with ⟨r, tr⟩
    cases r <;> simp [getAuthTokens, h]

/-- Claim C3: a `getAuthTokens` call on a non-empty cache returns the
cached pair immediately with zero network calls, and two sequential calls
from an empty cache whose first call succeeds perform exactly one
challenge and one login request in total, both returning the same pair. -/
theorem getAuthTokens_cache_hit_single_roundtrip (wallet : WalletOracle)
    (tp : Transport) (config : AuthConfig) (t : AuthTokens) :
    getAuthTokens wallet tp config (some t) = (.ok t, some t, ⟨0, 0⟩) ∧
    ((getAuthTokens wallet tp config none).1 = .ok t →
      getAuthTokensTwice wallet tp config = (.ok t, .ok t, some t, ⟨1, 1⟩)) := by
  refine ⟨rfl, fun h => ?_⟩
  rcases ha : authenticate wallet tp config with ⟨r, tr⟩
  cases r with
  | error e => simp [getAuthTokens, ha] at h
  | ok t2 =>
    have ht : t2 = t := by simpa [getAuthTokens, ha] using h
    have htr : tr = ⟨1, 1⟩ := authenticate_ok_trace wallet tp config t2 tr ha
    subst ht
    subst htr
    simp [getAuthTokensTwice, getAuthTokens, ha]

/-- Witness for C3 at a concrete wallet, transport and configuration. -/
theorem getAuthTokens_cache_hit_single_roundtrip_witness :
    getAuthTokensTwice ethersWallet tpOk cfgOk =
      (.ok tokensOk, .ok tokensOk, some tokensOk, ⟨1, 1⟩) :=
  (getAuthTokens_cache_hit_single_roundtrip ethersWallet tpOk cfgOk tokensOk).2 (by decide)

/-- Claim C4 counterexample: when a token pair is already cached, a
`getAuthTokens` call on a configuration whose private key is absent does
not fail with `MissingPrivateKey` - it succeeds and returns the cached
pair - so the claim is false as stated for that cache state. -/
theorem getAuthTokens_no_key_warm_cache_succeeds :
    cfgNoKey.privateKey = none ∧
    getAuthTokens ethersWallet tpFail cfgNoKey (some tokensOk) =
      (.ok tokensOk, some tokensOk, ⟨0, 0⟩) := by
  decide

/-- Claim C4 (amended): starting from an empty cache, `getAuthTokens` on a
configuration without a private key fails with `MissingPrivateKey` and
performs zero network calls whatever the transport and wallet do - the
check precedes the challenge request, the signing step and the login
request - while with a cached pair the call returns the cache, also with
zero network calls. -/
theorem getAuthTokens_missing_key (wallet : WalletOracle) (tp : Transport)
    (config : AuthConfig) (h : config.privateKey = none) :
    getAuthTokens wallet tp config none = (.error .missingPrivateKey, none, ⟨0, 0⟩) ∧
    (∀ t : AuthTokens, getAuthTokens wallet tp config (some t) = (.ok t, some t, ⟨0, 0⟩)) := by
  constructor
  · simp [getAuthTokens, authenticate, h]
  · intro t
    rfl

/-- Witness for C4 (amended) at a concrete transport and configuration. -/
theorem getAuthTokens_missing_key_witness :
    getAuthTokens ethersWallet tpOk cfgNoKey none = (.error .missingPrivateKey, none, ⟨0, 0⟩) :=
  (getAuthTokens_missing_key ethersWallet tpOk cfgNoKey rfl).1

/-- Whether a `signMessage` outcome is a failure of the spec class
`EmptyInput`. -/
def signFailureIsEmptyInput (r : Except SignError String) : Bool :=
  match r with
  | .error e => e.isEmptyInput
  | .ok _ => false

/-- Whether a `signMessage` outcome is a failure of the spec class
`InvalidKeyFormat`. -/
def signFailureIsInvalidKeyFormat (r : Except SignError String) : Bool :=
  match r with
  | .error e => e.isInvalidKeyFormat
  | .ok _ => false

/-- Claim C5 counterexample: `abcd` is an all-hex key that is not 64
characters long, so the claim requires `sign` to fail with
`InvalidKeyFormat`; the hex regex of the code accepts it, and the failure
(the modelled ethers wallet rejects keys that are not 32 bytes) is the
wrapped wallet error, not `InvalidKeyFormat`. -/
theorem signMessage_wrong_length_not_invalid_key_format :
    signMessage ethersWallet (some "abcd") "hello" = .error (.wrapped "invalid private key") ∧
    signFailureIsInvalidKeyFormat (signMessage ethersWallet (some "abcd") "hello") = false ∧
    isHexString (stripHex0x "abcd") = true ∧
    "abcd".toList.length ≠ 64 := by
  decide

/-- Claim C5 (amended): `sign` fails with `EmptyInput` exactly when the key
is `undefined` or empty or the message is empty, and fails with
`InvalidKeyFormat` exactly when a non-empty key, after the optional `0x`
strip, is not a string of hex characters.  The hex regex does not check the
64-character length, so an all-hex key of the wrong length reaches the
wallet layer and any failure there surfaces as a wrapped signing error
instead (assuming wallet errors do not collide with the internal hex-format
message). -/
theorem signMessage_failure_classes (wallet : WalletOracle) (pk : Option String)
    (message : String)
    (hw : ∀ k m e, wallet k m = .error e → e ≠ "Invalid hex format for private key") :
    signFailureIsEmptyInput (signMessage wallet pk message) =
      (decide (pk.getD "" = "") || decide (message = "")) ∧
    signFailureIsInvalidKeyFormat (signMessage wallet pk message) =
      (!decide (pk.getD "" = "") && !decide (message = "") &&
        !isHexString (stripHex0x (pk.getD ""))) := by
  unfold signMessage
  by_cases h1 : pk.getD "" = ""
  · simp [h1, signFailureIsEmptyInput, signFailureIsInvalidKeyFormat, SignError.isEmptyInput,
      SignError.isInvalidKeyFormat]
  · by_cases h2 : message = ""
    · simp [h1, h2, signFailureIsEmptyInput, signFailureIsInvalidKeyFormat,
        SignError.isEmptyInput, SignError.isInvalidKeyFormat]
    · by_cases h3 : isHexString (stripHex0x (pk.getD "")) = true
      · rcases hww : wallet ("0x" ++ stripHex0x (pk.getD "")) message with e | s
        · have hne := hw _ _ _ hww
          simp [h1, h2, h3, hww, signFailureIsEmptyInput, signFailureIsInvalidKeyFormat,
            SignError.isEmptyInput, SignError.isInvalidKeyFormat, hne]
        · simp [h1, h2, h3, hww, signFailureIsEmptyInput, signFailureIsInvalidKeyFormat,
            SignError.isEmptyInput, SignError.isInvalidKeyFormat]
      · have h3f : isHexString (stripHex0x (pk.getD "")) = false := by
          simpa using h3
        simp [h1, h2, h3f, signFailureIsEmptyInput, signFailureIsInvalidKeyFormat,
          SignError.isEmptyInput, SignError.isInvalidKeyFormat]

/-- Witness for C5 (amended): on the non-hex key of the spec scenario the
failure class is `InvalidKeyFormat`. -/
theorem signMessage_failure_classes_witness :
    signFailureIsInvalidKeyFormat (signMessage ethersWallet (some "not-hex") "msg") = true :=
  ((signMessage_failure_classes ethersWallet (some "not-hex") "msg"
      (by
        intro k m e he
        unfold ethersWallet at he
        split at he
        · simp at he
        · injection he with h
          rw [← h]
          decide)).2).trans (by decide)

/-- Claim C6 counterexample: `dGVzdA` fails strict base64 validation
(decoding and re-encoding yields `dGVzdA==`, and the Buffer round-trip
check rejects it), yet the upload tool accepts it through the multiformats
no-padding decoder and proceeds to perform the authentication round-trip
and the upload request. -/
theorem upload_accepts_non_strict_base64 :
    bytesToBase64 ((base64ToBytes "dGVzdA").getD []) ≠ "dGVzdA" ∧
    nodeBufferRoundTripDecode "dGVzdA" = none ∧
    (uploadHandler ethersWallet tpOk (.ok ⟨"QmCid"⟩) cfgOk none
      ⟨"dGVzdA", "t.txt", none, none⟩).result.isError = false ∧
    (uploadHandler ethersWallet tpOk (.ok ⟨"QmCid"⟩) cfgOk none
      ⟨"dGVzdA", "t.txt", none, none⟩).trace = ⟨1, 1⟩ ∧
    (uploadHandler ethersWallet tpOk (.ok ⟨"QmCid"⟩) cfgOk none
      ⟨"dGVzdA", "t.txt", none, none⟩).uploadCalls = 1 := by
  decide

/-- Claim C6 (amended): the upload tool rejects a payload before any
network call exactly when `base64ToBytes` fails as a whole, that is, when
both the multiformats decode (of the data-URL-stripped, `m`-prefixed
string) and the strict Buffer round-trip fail; the handler then performs
zero challenge, login and upload calls, leaves the cache untouched and
returns the `Invalid base64 format` error envelope. -/
theorem upload_rejects_undecodable_before_network (wallet : WalletOracle)
    (tp : Transport) (upResp : Except HttpFailure UploadResult) (config : AuthConfig)
    (cache : Option AuthTokens) (input : UploadInput)
    (h : base64ToBytes input.file = none) :
    uploadHandler wallet tp upResp config cache input =
      ⟨uploadErrorResult "Invalid base64 format", cache, ⟨0, 0⟩, 0, none⟩ := by
  simp [uploadHandler, h]

/-- Witness for C6 (amended) on a concretely rejected payload. -/
theorem upload_rejects_undecodable_before_network_witness :
    uploadHandler ethersWallet tpOk (.ok ⟨"QmCid"⟩) cfgOk none
      ⟨"not-base64", "t.txt", none, none⟩ =
      ⟨uploadErrorResult "Invalid base64 format", none, ⟨0, 0⟩, 0, none⟩ :=
  upload_rejects_undecodable_before_network ethersWallet tpOk (.ok ⟨"QmCid"⟩) cfgOk none
    ⟨"not-base64", "t.txt", none, none⟩ (by decide)

/-- Claim C7 counterexample: with `key` present as the empty string and
`public` present as `false`, the claim requires the multipart form to
contain the `key` and `public` fields; JS truthiness omits both. -/
theorem uploadFile_present_falsy_options_omitted :
    (UploadOptions.mk (some "") (some false) none).key.isSome = true ∧
    (UploadOptions.mk (some "") (some false) none).public.isSome = true ∧
    (uploadFile ⟨"https://api", "tok"⟩ [1, 2] "a.txt" ⟨some "", some false, none⟩
      (.ok ⟨"QmCid"⟩)).1.form = [.file [1, 2] "a.txt"] ∧
    hasFormField (uploadFile ⟨"https://api", "tok"⟩ [1, 2] "a.txt" ⟨some "", some false, none⟩
      (.ok ⟨"QmCid"⟩)).1 "key" = false ∧
    hasFormField (uploadFile ⟨"https://api", "tok"⟩ [1, 2] "a.txt" ⟨some "", some false, none⟩
      (.ok ⟨"QmCid"⟩)).1 "public" = false := by
  decide

/-- Claim C7 (amended): every upload request is a multipart form whose
first entry is the file bytes under field `file` with the given filename;
it contains `key` and `user` exactly when the option is present and
non-empty and `public` (serialized as `true`) exactly when present and
`true`; it carries the bearer authorization header; the call fails with
the upload-failure data of every non-success response and returns the
decoded `Mid` record on success. -/
theorem uploadFile_request_and_result (config : ApiConfig) (file : List Nat)
    (filename : String) (options : UploadOptions)
    (resp : Except HttpFailure UploadResult) :
    (uploadFile config file filename options resp).1.url = config.apiBaseUrl ++ "/mefs/" ∧
    (uploadFile config file filename options resp).1.authorization =
      "Bearer " ++ config.accessToken ∧
    (uploadFile config file filename options resp).1.form.head? =
      some (.file file filename) ∧
    getFormField (uploadFile config file filename options resp).1 "key" =
      (match options.key with
       | some k => if k = "" then none else some k
       | none => none) ∧
    getFormField (uploadFile config file filename options resp).1 "public" =
      (if options.public = some true then some "true" else none) ∧
    getFormField (uploadFile config file filename options resp).1 "user" =
      (match options.user with
       | some u => if u = "" then none else some u
       | none => none) ∧
    (uploadFile config file filename options resp).2 =
      (match resp with
       | .ok r => .ok r
       | .error f => .error (.uploadFailed f)) := by
  refine ⟨rfl, rfl, rfl, ?_, ?_, ?_, ?_⟩
  · simp [uploadFile, getFormField, buildUploadRequest, formLookup, formLookup_append,
      formLookup_optStringField, formLookup_optBoolField, optFirst_none_right]
  · simp [uploadFile, getFormField, buildUploadRequest, formLookup, formLookup_append,
      formLookup_optStringField, formLookup_optBoolField, optFirst_none_right, optFirst_none_left]
  · simp [uploadFile, getFormField, buildUploadRequest, formLookup, formLookup_append,
      formLookup_optStringField, formLookup_optBoolField, optFirst_none_right, optFirst_none_left]
  · rcases resp with f | r <;> rfl

/-- A successful download response fixture with both headers present. -/
def dlRespOk : DownloadHttpResponse :=
  ⟨true, 200, "OK", "", some "text/plain", some "attachment; filename=\"f.txt\"", [1, 2, 3]⟩

/-- Claim C8: for every successful download response the result carries the
full body bytes, the `Content-Type` header when present, and the filename
extracted by the leftmost `filename="..."`-or-unquoted match on the
`Content-Disposition` header, defaulting to the literal `unknown` when the
header is absent or the pattern does not match (illustrated on a quoted, an
unquoted and an unparsable header). -/
theorem downloadFile_success_result (config : ApiConfig) (cid : String)
    (key : Option String) (resp : DownloadHttpResponse) (h : resp.ok = true) :
    (downloadFile config cid key resp).2 =
      .ok ⟨resp.body, filenameFromHeader resp.contentDisposition,
           jsHeaderOrNone resp.contentType⟩ ∧
    (resp.contentDisposition = none → filenameFromHeader resp.contentDisposition = "unknown") ∧
    (findFilename ((resp.contentDisposition.getD "").toList) = none →
      filenameFromHeader resp.contentDisposition = "unknown") ∧
    filenameFromHeader (some "attachment; filename=\"report.pdf\"") = "report.pdf" ∧
    filenameFromHeader (some "attachment; filename=report.pdf") = "report.pdf" ∧
    filenameFromHeader (some "attachment") = "unknown" := by
  refine ⟨?_, ?_, ?_, by decide, by decide, by decide⟩
  · simp [downloadFile, h]
  · intro h2
    rw [h2]
    decide
  · intro h2
    have h3 : findFilename (resp.contentDisposition.getD "").data = none := h2
    simp [filenameFromHeader, h3]

/-- Witness for C8 at a concrete response. -/
theorem downloadFile_success_result_witness :
    (downloadFile ⟨"https://api", "tok"⟩ "QmCid" none dlRespOk).2 =
      .ok ⟨[1, 2, 3], filenameFromHeader dlRespOk.contentDisposition,
           jsHeaderOrNone dlRespOk.contentType⟩ :=
  (downloadFile_success_result ⟨"https://api", "tok"⟩ "QmCid" none dlRespOk rfl).1

/-- Claim C9: both tool handlers are total functions into the tool-result
type - every validation, authentication or transfer failure is caught
rather than thrown - the error flag is set exactly when the operation
failed, and an error payload carries the `name`, `message` and `cause`
properties; a success result does not carry the error flag. -/
theorem tool_handlers_error_envelope (wallet : WalletOracle) (tp : Transport)
    (upResp : Except HttpFailure UploadResult) (dlResp : DownloadHttpResponse)
    (config : AuthConfig) (cache : Option AuthTokens)
    (uin : UploadInput) (rin : RetrieveInput) :
    ((uploadHandler wallet tp upResp config cache uin).result.isError =
      ((base64ToBytes uin.file).isNone ||
        exceptIsError (getAuthTokens wallet tp config cache).1 || exceptIsError upResp)) ∧
    ((retrieveHandler wallet tp dlResp config cache rin).result.isError =
      (exceptIsError (getAuthTokens wallet tp config cache).1 || !dlResp.ok)) ∧
    ((uploadHandler wallet tp upResp config cache uin).result.isError = true →
      hasJsonKey (uploadHandler wallet tp upResp config cache uin).result.payload "name" = true ∧
      hasJsonKey (uploadHandler wallet tp upResp config cache uin).result.payload "message" = true ∧
      hasJsonKey (uploadHandler wallet tp upResp config cache uin).result.payload "cause" = true) ∧
    ((retrieveHandler wallet tp dlResp config cache rin).result.isError = true →
      hasJsonKey (retrieveHandler wallet tp dlResp config cache rin).result.payload "name" = true ∧
      hasJsonKey (retrieveHandler wallet tp dlResp config cache rin).result.payload "message" = true ∧
      hasJsonKey (retrieveHandler wallet tp dlResp config cache rin).result.payload "cause" = true) := by
  rcases hb : base64ToBytes uin.file with _ | bytes <;>
    rcases ha : getAuthTokens wallet tp config cache with ⟨r, c2, tr⟩ <;>
    cases r <;>
    rcases upResp with uf | ur <;>
    cases hok : dlResp.ok <;>
    simp [uploadHandler, retrieveHandler, uploadFile, downloadFile, hb, ha, hok,
      exceptIsError, hasJsonKey, uploadErrorResult, retrieveErrorResult]

/-- Witness for C9: a failing transport yields a flagged envelope whose
payload carries `name`. -/
theorem tool_handlers_error_envelope_witness :
    hasJsonKey (uploadHandler ethersWallet tpFail (.ok ⟨"QmCid"⟩) cfgOk none
      ⟨"dGVzdA==", "t.txt", none, none⟩).result.payload "name" = true :=
  ((tool_handlers_error_envelope ethersWallet tpFail (.ok ⟨"QmCid"⟩) dlRespOk cfgOk none
      ⟨"dGVzdA==", "t.txt", none, none⟩ ⟨"QmCid", none⟩).2.2.1 (by decide)).1

theorem isPrefixOf_append_self (p t : List Char) : p.isPrefixOf (p ++ t) = true := by
  simp

theorem markerChars_not_lead (c : Char) (l : List Char) (h : c ≠ ';') :
    markerChars.isPrefixOf (c :: l) = false := by
  have hb : (';' == c) = false := beq_eq_false_iff_ne.mpr fun hh => h hh.symm
  simp [markerChars, List.isPrefixOf, hb]

/-- The lazy `.*?;base64,` consumes exactly up to the first marker when no
`;` occurs before it. -/
theorem dropAfterMarker_first (mt rest : List Char)
    (h : ∀ c ∈ mt, jsDotMatch c = true ∧ c ≠ ';') :
    dropAfterMarker (mt ++ (markerChars ++ rest)) = some rest := by
  induction mt with
  | nil => simp [markerChars, dropAfterMarker, List.isPrefixOf]
  | cons c cs ih =>
    have hc := h c (by simp)
    have hrest : ∀ x ∈ cs, jsDotMatch x = true ∧ x ≠ ';' := fun x hx => h x (by simp [hx])
    have hb : markerChars.isPrefixOf (c :: (cs ++ (markerChars ++ rest))) = false :=
      markerChars_not_lead c _ hc.2
    simp [List.cons_append, dropAfterMarker, hb, hc.1, ih hrest]

/-- Lemma: `stripDataUrlChars` removes exactly the `data:<mediatype>;base64,`
prefix when the media type is `.`-matchable and `;`-free. -/
theorem stripDataUrlChars_of_data_url (mt rest : List Char)
    (h : ∀ c ∈ mt, jsDotMatch c = true ∧ c ≠ ';') :
    stripDataUrlChars ((dataPrelude ++ mt) ++ (markerChars ++ rest)) = rest := by
  have hpre : dataPrelude.isPrefixOf (dataPrelude ++ (mt ++ (markerChars ++ rest))) = true :=
    isPrefixOf_append_self dataPrelude _
  have hdrop : List.drop 5 (dataPrelude ++ (mt ++ (markerChars ++ rest))) =
      mt ++ (markerChars ++ rest) := by
    simp [dataPrelude]
  unfold stripDataUrlChars
  simp [hpre, hdrop, dropAfterMarker_first mt rest h]

/-- Claim C10: a `data:<mediatype>;base64,<rest>` payload has its data-URL
prefix stripped (for any media type of `.`-matchable characters without
`;`) and exactly `<rest>` enters the decode pipeline; when `<rest>`
decodes, the upload tool accepts the payload and the multipart request it
sends carries exactly those decoded bytes as the file entry. -/
theorem upload_data_url_strips_and_decodes_suffix (mt rest : List Char)
    (wallet : WalletOracle) (tp : Transport) (upResp : Except HttpFailure UploadResult)
    (config : AuthConfig) (cache : Option AuthTokens) (name : String)
    (key : Option String) (pub : Option Bool) (bytes : List Nat)
    (hmt : ∀ c ∈ mt, jsDotMatch c = true ∧ c ≠ ';') :
    base64ToBytes (String.mk ((dataPrelude ++ mt) ++ (markerChars ++ rest))) =
      decodeCleanedBase64 (String.mk rest) ∧
    (decodeCleanedBase64 (String.mk rest) = some bytes →
      ∀ req,
        (uploadHandler wallet tp upResp config cache
            ⟨String.mk ((dataPrelude ++ mt) ++ (markerChars ++ rest)), name, key, pub⟩).sentRequest =
          some req →
        req.form.head? = some (.file bytes name)) := by
  have hbase : base64ToBytes (String.mk ((dataPrelude ++ mt) ++ (markerChars ++ rest))) =
      decodeCleanedBase64 (String.mk rest) := by
    show decodeCleanedBase64 (String.mk (stripDataUrlChars ((dataPrelude ++ mt) ++ (markerChars ++ rest)))) = _
    rw [stripDataUrlChars_of_data_url mt rest hmt]
  refine ⟨hbase, fun hdec req hreq => ?_⟩
  unfold uploadHandler at hreq
  rw [hbase, hdec] at hreq
  rcases ha : getAuthTokens wallet tp config cache with ⟨r, c2, tr⟩
  rw [ha] at hreq
  cases r with
  | error e => simp at hreq
  | ok tokens =>
    rcases upResp with uf | ur <;>
      simp [uploadFile] at hreq <;>
      simp [← hreq, buildUploadRequest]

/-- Witness for C10 at a concrete data-URL payload. -/
theorem upload_data_url_strips_and_decodes_suffix_witness :
    base64ToBytes (String.mk ((dataPrelude ++ "image/png".toList) ++
        (markerChars ++ "dGVzdA==".toList))) =
      decodeCleanedBase64 (String.mk "dGVzdA==".toList) :=
  (upload_data_url_strips_and_decodes_suffix "image/png".toList "dGVzdA==".toList
    ethersWallet tpOk (.ok ⟨"QmCid"⟩) cfgOk none "t.png" none none [116, 101, 115, 116]
    (by decide)).1

end Mefs
